import Mathlib

/-!
Shallow embedding of the tarot card model from `src/src/main.rs`
(crate `ottar`): the `Suit`, `Rank`, `Trump` enumerations, the `Figure`
sum type, the `Card` wrapper with its `points` function, and the `Deck`
aggregate with its membership-guarded insertion and point-sum query.

Rust's `Option<Ordering>` results of `partial_cmp` are embedded as
`Option Ordering`; the derived `PartialOrd` implementations are spelled
out exactly as the derive macro generates them (discriminant order first,
then field-wise comparison).  The `u16` accumulator of `Deck::points` is
embedded as a `Nat` with an explicit `% 2^16` at each addition.
-/

/-- The four non-trump suits, in Rust declaration order (`enum Suit`). -/
inductive Suit where
  | Spade
  | Heart
  | Diamond
  | Club
  deriving DecidableEq, Fintype, Repr

/-- The fourteen ranks within a suit, in Rust declaration order (`enum Rank`). -/
inductive Rank where
  | Ace
  | Two
  | Three
  | Four
  | Five
  | Six
  | Seven
  | Eight
  | Nine
  | Ten
  | Jack
  | Knight
  | Queen
  | King
  deriving DecidableEq, Fintype, Repr

/-- The twenty-one trump strengths, in Rust declaration order (`enum Trump`). -/
inductive Trump where
  | One
  | Two
  | Three
  | Four
  | Five
  | Six
  | Seven
  | Eight
  | Nine
  | Ten
  | Eleven
  | Twelve
  | Thirteen
  | Fourteen
  | Fifteen
  | Sixteen
  | Seventeen
  | Eighteen
  | Nineteen
  | Twenty
  | TwentyOne
  deriving DecidableEq, Fintype, Repr

/-- `enum Figure { Fool, Base(Suit, Rank), Trump(Trump) }`. -/
inductive Figure where
  | Fool
  | Base (suit : Suit) (rank : Rank)
  | Trump (trump : Trump)
  deriving DecidableEq, Fintype, Repr

/-- `struct Card(Figure)`: a thin wrapper around `Figure`. -/
structure Card where
  fig : Figure
  deriving DecidableEq, Fintype, Repr

/-- `impl PartialOrd for Suit`: hand-written in the source — `Some(Equal)`
when the two suits are equal and `Some(Greater)` otherwise; `Less` is
never produced. -/
def Suit.pcmp (a b : Suit) : Option Ordering :=
  if a = b then some Ordering.eq else some Ordering.gt

/-- Discriminant (declaration ordinal) of a `Rank`, as used by the derived
`PartialOrd` of the fieldless enum. -/
def Rank.toNat : Rank → Nat
  | .Ace => 0
  | .Two => 1
  | .Three => 2
  | .Four => 3
  | .Five => 4
  | .Six => 5
  | .Seven => 6
  | .Eight => 7
  | .Nine => 8
  | .Ten => 9
  | .Jack => 10
  | .Knight => 11
  | .Queen => 12
  | .King => 13

/-- Derived `PartialOrd` for `Rank`: compare declaration ordinals; always
`Some`. -/
def Rank.pcmp (a b : Rank) : Option Ordering :=
  some (compare a.toNat b.toNat)

/-- Discriminant (declaration ordinal) of a `Trump`. -/
def Trump.toNat : Trump → Nat
  | .One => 0
  | .Two => 1
  | .Three => 2
  | .Four => 3
  | .Five => 4
  | .Six => 5
  | .Seven => 6
  | .Eight => 7
  | .Nine => 8
  | .Ten => 9
  | .Eleven => 10
  | .Twelve => 11
  | .Thirteen => 12
  | .Fourteen => 13
  | .Fifteen => 14
  | .Sixteen => 15
  | .Seventeen => 16
  | .Eighteen => 17
  | .Nineteen => 18
  | .Twenty => 19
  | .TwentyOne => 20

/-- Derived `PartialOrd` for `Trump`: compare declaration ordinals; always
`Some`. -/
def Trump.pcmp (a b : Trump) : Option Ordering :=
  some (compare a.toNat b.toNat)

/-- Discriminant of a `Figure` variant: `Fool` = 0, `Base` = 1, `Trump` = 2
(declaration order), as compared first by the derived `PartialOrd`. -/
def Figure.tier : Figure → Nat
  | .Fool => 0
  | .Base _ _ => 1
  | .Trump _ => 2

/-- Derived `PartialOrd` for `Figure`, exactly as the derive macro
generates it: equal discriminants compare the payload fields
lexicographically by their own `partial_cmp` (so `Base` first compares
suits with the hand-written `Suit` rule, and only on `Some(Equal)`
compares ranks); different discriminants compare by declaration ordinal. -/
def Figure.pcmp : Figure → Figure → Option Ordering
  | .Fool, .Fool => some Ordering.eq
  | .Base s1 r1, .Base s2 r2 =>
      match Suit.pcmp s1 s2 with
      | some Ordering.eq => Rank.pcmp r1 r2
      | c => c
  | .Trump t1, .Trump t2 => Trump.pcmp t1 t2
  | a, b => some (compare a.tier b.tier)

/-- Derived `PartialOrd` for `Card`: delegated to the wrapped `Figure`. -/
def Card.pcmp (a b : Card) : Option Ordering :=
  Figure.pcmp a.fig b.fig

/-- `Card::points`: the point value (true value ×10, stored as `u8` in the
source), a pure function of the wrapped `Figure`, with match arms in the
source's order. -/
def Card.points (c : Card) : Nat :=
  match c.fig with
  | .Fool => 45
  | .Trump .One => 45
  | .Trump .TwentyOne => 45
  | .Base _ rank =>
      match rank with
      | .Jack => 15
      | .Knight => 25
      | .Queen => 35
      | .King => 45
      | _ => 5
  | _ => 5

/-- `Suit::iter()` of the `EnumIter` derive: all suits in declaration
order. -/
def Suit.iter : List Suit :=
  [.Spade, .Heart, .Diamond, .Club]

/-- `Rank::iter()`: all ranks in declaration order. -/
def Rank.iter : List Rank :=
  [.Ace, .Two, .Three, .Four, .Five, .Six, .Seven, .Eight, .Nine, .Ten,
   .Jack, .Knight, .Queen, .King]

/-- `Trump::iter()`: all trumps in declaration order. -/
def Trump.iter : List Trump :=
  [.One, .Two, .Three, .Four, .Five, .Six, .Seven, .Eight, .Nine, .Ten,
   .Eleven, .Twelve, .Thirteen, .Fourteen, .Fifteen, .Sixteen, .Seventeen,
   .Eighteen, .Nineteen, .Twenty, .TwentyOne]

/-- `HashSet::insert` on the deck's card set: a no-op when the card is
already a member, otherwise the card joins the set.  (Iteration order of a
`HashSet` is unspecified; the list order here is one admissible order.) -/
def insertCard (s : List Card) (c : Card) : List Card :=
  if c ∈ s then s else s ++ [c]

/-- `struct Deck { set: HashSet<Card> }`, with the set embedded as a
duplicate-free list. -/
structure Deck where
  set : List Card

/-- `Deck::new`: insert every `Base(suit, rank)` over the suit×rank cross
product, then every `Trump`, then the single `Fool`. -/
def Deck.new : Deck :=
  let s1 := Suit.iter.foldl
    (fun acc suit =>
      Rank.iter.foldl (fun acc2 rank => insertCard acc2 ⟨Figure.Base suit rank⟩) acc)
    []
  let s2 := Trump.iter.foldl (fun acc trump => insertCard acc ⟨Figure.Trump trump⟩) s1
  ⟨insertCard s2 ⟨Figure.Fool⟩⟩

/-- The mathematical (unbounded) sum of the point values of a list of
cards. -/
def sumPoints (l : List Card) : Nat :=
  (l.map Card.points).sum

/-- The `u16` accumulation loop of `Deck::points`: start from `0` and add
each card's (widened) point value, with the machine word's `% 2^16`. -/
def pointsU16 (l : List Card) : Nat :=
  l.foldl (fun res c => (res + c.points) % 65536) 0

/-- `Deck::points`: sum each member card's points into a `u16`
accumulator. -/
def Deck.points (d : Deck) : Nat :=
  pointsU16 d.set

/-! ## Helper lemmas -/

set_option maxRecDepth 40000

/-- Every single card is worth at most 45 (scaled) points. -/
theorem card_points_le_45 (c : Card) : c.points ≤ 45 := by
  revert c; decide

/-- A duplicate-free list of cards (at most the 78 distinct cards) sums to
at most 78 × 45 = 3510 points. -/
theorem sumPoints_le_3510 (l : List Card) (h : l.Nodup) : sumPoints l ≤ 3510 := by
  have hb : ∀ x ∈ l.map Card.points, x ≤ 45 := by
    intro x hx
    rcases List.mem_map.mp hx with ⟨c, _, rfl⟩
    exact card_points_le_45 c
  have h1 : (l.map Card.points).sum ≤ (l.map Card.points).length • 45 :=
    List.sum_le_card_nsmul _ 45 hb
  have h2 : l.length ≤ Fintype.card Card := h.length_le_card
  have h3 : Fintype.card Card = 78 := by decide
  have h4 : (l.map Card.points).length = l.length := List.length_map _ _
  simp only [sumPoints, smul_eq_mul, h4] at h1 ⊢
  omega

/-- As long as the running total stays below 2^16, the `u16` accumulation
loop computes the exact mathematical sum: no addition wraps. -/
theorem pointsU16_foldl_eq (l : List Card) (acc : Nat)
    (h : acc + sumPoints l < 65536) :
    l.foldl (fun res c => (res + c.points) % 65536) acc = acc + sumPoints l := by
  induction l generalizing acc with
  | nil => simp [sumPoints]
  | cons c t ih =>
    have hsum : sumPoints (c :: t) = c.points + sumPoints t := by
      simp [sumPoints]
    rw [hsum] at h
    simp only [List.foldl_cons]
    rw [Nat.mod_eq_of_lt (by omega)]
    rw [ih (acc + c.points) (by omega), hsum]
    omega

/-! ## Claims -/

/-- C1: For every freshly built deck, the total-points query returns
exactly 910: `Deck::points` sums `Card::points` over all member cards of
the deck produced by `Deck::new`, and that sum equals the fixed constant
910 (point values scaled by ten). -/
theorem deck_new_points_910 :
    Deck.new.points = 910 ∧ Deck.new.points = sumPoints Deck.new.set := by
  exact ⟨by decide, by decide⟩

/-- C2: Deck construction always yields exactly 78 distinct cards, and
inserting a card already present in the set is a silent no-op leaving the
cardinality unchanged, never an error. -/
theorem deck_new_78_distinct :
    Deck.new.set.length = 78 ∧ Deck.new.set.Nodup ∧
    ∀ (s : List Card) (c : Card), c ∈ s →
      insertCard s c = s ∧ (insertCard s c).length = s.length := by
  refine ⟨by decide, by decide, ?_⟩
  intro s c h
  simp [insertCard, h]

/-- Witness for C2: re-inserting the Fool, already a member of the freshly
built deck, changes neither the set nor its cardinality. -/
theorem deck_new_78_distinct_witness :
    insertCard Deck.new.set ⟨Figure.Fool⟩ = Deck.new.set ∧
    (insertCard Deck.new.set ⟨Figure.Fool⟩).length = Deck.new.set.length :=
  deck_new_78_distinct.2.2 Deck.new.set ⟨Figure.Fool⟩ (by decide)

/-- C3: `Card::points` is a pure total function of the wrapped `Figure`
matching the spec's table exactly: Fool = 45, Trump One = 45,
Trump TwentyOne = 45, any other Trump = 5, Jack = 15, Knight = 25,
Queen = 35, King = 45 for every suit, and any other Base rank = 5. -/
theorem card_points_table :
    Card.points ⟨Figure.Fool⟩ = 45 ∧
    Card.points ⟨Figure.Trump .One⟩ = 45 ∧
    Card.points ⟨Figure.Trump .TwentyOne⟩ = 45 ∧
    (∀ t : Trump, t ≠ .One → t ≠ .TwentyOne →
      Card.points ⟨Figure.Trump t⟩ = 5) ∧
    (∀ s : Suit,
      Card.points ⟨Figure.Base s .Jack⟩ = 15 ∧
      Card.points ⟨Figure.Base s .Knight⟩ = 25 ∧
      Card.points ⟨Figure.Base s .Queen⟩ = 35 ∧
      Card.points ⟨Figure.Base s .King⟩ = 45) ∧
    (∀ (s : Suit) (r : Rank), r ≠ .Jack → r ≠ .Knight → r ≠ .Queen →
      r ≠ .King → Card.points ⟨Figure.Base s r⟩ = 5) := by
  decide

/-- Witness for C3: the other-Trump and other-Base-rank rows at a concrete
input — Trump Ten is worth 5 and the Ace of Hearts is worth 5. -/
theorem card_points_table_witness :
    Card.points ⟨Figure.Trump .Ten⟩ = 5 ∧
    Card.points ⟨Figure.Base .Heart .Ace⟩ = 5 :=
  ⟨card_points_table.2.2.2.1 .Ten (by decide) (by decide),
   card_points_table.2.2.2.2.2 .Heart .Ace (by decide) (by decide)
     (by decide) (by decide)⟩

/-- C4: Suit comparison is total and never returns Less: it yields Equal
exactly when the two suits are equal and Greater otherwise, regardless of
operand order — so for distinct suits both orientations yield Greater and
the relation is intentionally not antisymmetric. -/
theorem suit_pcmp_total_never_less :
    ∀ a b : Suit,
      Suit.pcmp a b = some (if a = b then Ordering.eq else Ordering.gt) ∧
      (Suit.pcmp a b = some Ordering.eq ∨ Suit.pcmp a b = some Ordering.gt) := by
  decide

/-- C5: Any Trump Figure compares strictly greater than any Base Figure,
independent of the trump's strength and of the base card's suit or rank. -/
theorem trump_beats_base :
    ∀ (t : Trump) (s : Suit) (r : Rank),
      Figure.pcmp (.Trump t) (.Base s r) = some Ordering.gt := by
  decide

/-- C6: Comparing two Base Figures first applies the directional Suit rule
(distinct suits resolve as Greater in favor of the left operand) and only
on equal suits compares the ranks by their declaration-order total order;
in particular Base(Spade, Two) vs Base(Spade, Ace) is Greater. -/
theorem base_base_pcmp_composition :
    (∀ (s1 s2 : Suit) (r1 r2 : Rank),
      Figure.pcmp (.Base s1 r1) (.Base s2 r2) =
        if s1 = s2 then Rank.pcmp r1 r2 else some Ordering.gt) ∧
    Figure.pcmp (.Base .Spade .Two) (.Base .Spade .Ace) = some Ordering.gt := by
  exact ⟨by decide, by decide⟩

/-- C7: Rank comparison and Trump comparison are strict total orders over
their finite value sets, consistent with declaration order (the declared
sequences are strictly increasing pairwise): totality, antisymmetry and
transitivity all hold. -/
theorem rank_trump_strict_total_order :
    List.Pairwise (fun a b => Rank.pcmp a b = some Ordering.lt) Rank.iter ∧
    (∀ a b : Rank, a = b ∨ Rank.pcmp a b = some Ordering.lt ∨
      Rank.pcmp a b = some Ordering.gt) ∧
    (∀ a b : Rank, Rank.pcmp a b = some Ordering.eq ↔ a = b) ∧
    (∀ a b : Rank, Rank.pcmp a b = some Ordering.lt ↔
      Rank.pcmp b a = some Ordering.gt) ∧
    (∀ a b c : Rank, Rank.pcmp a b = some Ordering.lt →
      Rank.pcmp b c = some Ordering.lt → Rank.pcmp a c = some Ordering.lt) ∧
    List.Pairwise (fun a b => Trump.pcmp a b = some Ordering.lt) Trump.iter ∧
    (∀ a b : Trump, a = b ∨ Trump.pcmp a b = some Ordering.lt ∨
      Trump.pcmp a b = some Ordering.gt) ∧
    (∀ a b : Trump, Trump.pcmp a b = some Ordering.eq ↔ a = b) ∧
    (∀ a b : Trump, Trump.pcmp a b = some Ordering.lt ↔
      Trump.pcmp b a = some Ordering.gt) ∧
    (∀ a b c : Trump, Trump.pcmp a b = some Ordering.lt →
      Trump.pcmp b c = some Ordering.lt → Trump.pcmp a c = some Ordering.lt) := by
  decide

/-- Witness for C7: transitivity applied at concrete values — Ace < Two
and Two < Three give Ace < Three among ranks, and likewise One < Three
among trumps. -/
theorem rank_trump_strict_total_order_witness :
    Rank.pcmp .Ace .Three = some Ordering.lt ∧
    Trump.pcmp .One .Three = some Ordering.lt :=
  ⟨rank_trump_strict_total_order.2.2.2.2.1 .Ace .Two .Three
     (by decide) (by decide),
   rank_trump_strict_total_order.2.2.2.2.2.2.2.2.2 .One .Two .Three
     (by decide) (by decide)⟩

/-- C8: The Figure comparison orders variants structurally by declaration
order: Fool compares Less than every Base and every Trump Figure, and
every Base Figure (as left operand) compares Less than every Trump
Figure — Fool sorts before Base, which sorts before Trump. -/
theorem figure_structural_variant_order :
    ∀ (s : Suit) (r : Rank) (t : Trump),
      Figure.pcmp .Fool (.Base s r) = some Ordering.lt ∧
      Figure.pcmp .Fool (.Trump t) = some Ordering.lt ∧
      Figure.pcmp (.Base s r) (.Trump t) = some Ordering.lt := by
  decide

/-- C9: Figure (and hence Card) comparison is total: for every pair the
result is `Some` of a definite ordering, never `None`; no pair is
incomparable. -/
theorem figure_card_pcmp_total :
    (∀ f g : Figure, (Figure.pcmp f g).isSome = true) ∧
    (∀ c d : Card, (Card.pcmp c d).isSome = true) := by
  exact ⟨by decide, by decide⟩

/-- C10: `Deck::points` never overflows its `u16` accumulator: every
individual card's points value is at most 45, any duplicate-free list of
cards has at most 78 elements, so its point sum is at most 78 × 45 = 3510,
well under 2^16, and the accumulation loop with the machine `% 2^16`
computes exactly the unbounded sum — no addition wraps. -/
theorem deck_points_no_overflow (l : List Card) (h : l.Nodup) :
    (∀ c : Card, c.points ≤ 45) ∧ l.length ≤ 78 ∧ sumPoints l ≤ 3510 ∧
    pointsU16 l = sumPoints l := by
  have hlen : l.length ≤ 78 := by
    have := h.length_le_card
    have hc : Fintype.card Card = 78 := by decide
    omega
  have hsum := sumPoints_le_3510 l h
  have hfold := pointsU16_foldl_eq l 0 (by omega)
  exact ⟨card_points_le_45, hlen, hsum, by simpa [pointsU16] using hfold⟩

/-- Witness for C10: the freshly built deck is duplicate-free, and on it
the `u16` loop agrees with the unbounded sum, which is within bounds. -/
theorem deck_points_no_overflow_witness :
    Deck.new.set.length ≤ 78 ∧ sumPoints Deck.new.set ≤ 3510 ∧
    pointsU16 Deck.new.set = sumPoints Deck.new.set := by
  have h := deck_points_no_overflow Deck.new.set (by decide)
  exact ⟨h.2.1, h.2.2.1, h.2.2.2⟩
